import Mathlib

/-!
Message Log table (fsw/src/msglogtbl.c).

A shallow embedding of the table object of the OpenSatKit demo app: the
constructor, the status reset, the load command with its JSON callback and
the dump command.  File-scope statics of the C file (the object behind the
pointer MsgLogTbl, the load buffer TblData and the binding array JsonTblObjs)
are the fields of one explicit state record that every function threads.

Routines of the application framework and of the platform (CJSON, OSAL, cFE
services) are not part of this repository.  They appear as parameters: the
field mapper CJSON_LoadObjArray, the outcome of reading a file, the outcome of
the storage calls, the printed system time.
-/

set_option linter.unusedVariables false

namespace MsgLogTbl

/-! ## Build constants -/

/-- Constants that the C file takes from headers outside the given sources
(app_cfg.h, msglogtbl.h, the OSAL and framework headers).  None of their
values is fixed here; every function takes them as a parameter. -/
structure Platform where
  OS_MAX_PATH_LEN : Nat
  MSGLOGTBL_FILE_EXT_MAX_LEN : Nat
  MSGLOGTBL_JSON_FILE_MAX_CHAR : Nat
  sizeof_EntryCnt : Nat
  sizeof_PlaybkDelay : Nat
  OS_FS_SUCCESS : Int
  TBLMGR_STATUS_UNDEF : Nat
  TBLMGR_STATUS_VALID : Nat
  TBLMGR_STATUS_INVALID : Nat
  CFG_APP_CFE_NAME : Nat

/-- The terminating character of a C string. -/
def NUL : Char := Char.ofNat 0

/-- The C string held in a character array: the characters before the first
NUL.  This is what the conversion %s prints. -/
def cstr (a : List Char) : List Char :=
  a.takeWhile (fun c => c != NUL)

/-- A character array of n bytes after memset(…, 0, n). -/
def zeroChars (n : Nat) : List Char :=
  List.replicate n NUL

/-! ## Data model -/

/-- Modelled from the spec: the declaration of MSGLOGTBL_File_t lives in
msglogtbl.h, which is not among the sources.  The fields are the ones
msglogtbl.c reads and writes (TblData.File.PathBaseName, .Extension,
.EntryCnt).  A character array is the list of its bytes, a number is a Nat. -/
structure MSGLOGTBL_File_t where
  PathBaseName : List Char
  Extension : List Char
  EntryCnt : Nat
deriving DecidableEq, Repr

/-- Modelled from the spec: MSGLOGTBL_Data_t of msglogtbl.h, the
configuration record (the file parameters and the playback delay). -/
structure MSGLOGTBL_Data_t where
  File : MSGLOGTBL_File_t
  PlaybkDelay : Nat
deriving DecidableEq, Repr

/-- Modelled from the spec: MSGLOGTBL_Class_t of msglogtbl.h, with the members
that msglogtbl.c uses.  LastLoadStatus holds one of the TBLMGR_STATUS_
constants of the platform. -/
structure MSGLOGTBL_Class_t where
  Data : MSGLOGTBL_Data_t
  AppName : String
  Loaded : Bool
  LastLoadStatus : Nat
  LastLoadCnt : Nat
  JsonObjCnt : Nat
  JsonBuf : List Char
  JsonFileLen : Nat
deriving DecidableEq, Repr

/-- The member of TblData that an entry of JsonTblObjs points to (the column
"Table Data Address" of the array). -/
inductive TblDataAddr where
  | PathBaseName
  | Extension
  | EntryCnt
  | PlaybkDelay
deriving DecidableEq, Repr

/-- The JSON value kinds used in the column "Data Type" of JsonTblObjs. -/
inductive JSONTypes_t where
  | JSONString
  | JSONNumber
deriving DecidableEq, Repr

/-- One row of JsonTblObjs, with the columns named in the comment above the array:
table data address, table data length, updated flag, data type and query string (its
length is the length of the string). -/
structure CJSON_Obj_t where
  TblData : TblDataAddr
  TblDataLen : Nat
  Updated : Bool
  DataType : JSONTypes_t
  Query : String
deriving DecidableEq, Repr

/-- The static initialiser of JsonTblObjs (lines 59 to 68). -/
def JsonTblObjs (P : Platform) : List CJSON_Obj_t :=
  [ { TblData := .PathBaseName, TblDataLen := P.OS_MAX_PATH_LEN, Updated := false,
      DataType := .JSONString, Query := "file.path-base-name" },
    { TblData := .Extension, TblDataLen := P.MSGLOGTBL_FILE_EXT_MAX_LEN, Updated := false,
      DataType := .JSONString, Query := "file.extension" },
    { TblData := .EntryCnt, TblDataLen := P.sizeof_EntryCnt, Updated := false,
      DataType := .JSONNumber, Query := "file.entry-cnt" },
    { TblData := .PlaybkDelay, TblDataLen := P.sizeof_PlaybkDelay, Updated := false,
      DataType := .JSONNumber, Query := "playbk-delay" } ]

/-- An event message handed to CFE_EVS_SendEvent by this file, with its arguments. -/
inductive Event where
  | MSGLOGTBL_LOAD_ERR_EID (ObjLoadCnt JsonObjCnt : Nat)
  | MSGLOGTBL_DUMP_ERR_EID (Filename : String) (FileHandle : Int)
deriving DecidableEq, Repr

/-- The file-scope data of msglogtbl.c: the object the static pointer MsgLogTbl
refers to once the constructor has run, the static load buffer TblData, the
static array JsonTblObjs, and the events sent so far. -/
structure Module where
  MsgLogTbl : MSGLOGTBL_Class_t
  TblData : MSGLOGTBL_Data_t
  JsonTblObjs : List CJSON_Obj_t
  Events : List Event
deriving DecidableEq, Repr

/-! ## Collaborators -/

/-- The initialisation table of the framework, seen through INITBL_GetStrConfig. -/
structure INITBL_Class_t where
  StrConfig : Nat → String

/-- The framework call INITBL_GetStrConfig(IniTbl, Param). -/
def INITBL_GetStrConfig (IniTbl : INITBL_Class_t) (Param : Nat) : String :=
  IniTbl.StrConfig Param

/-- What CJSON_LoadObjArray leaves behind: the binding array (its Updated flags),
the buffer the bindings point into, and the returned number of loaded objects. -/
structure CJSON_LoadResult where
  Objs : List CJSON_Obj_t
  TblData : MSGLOGTBL_Data_t
  ObjLoadCnt : Nat
deriving DecidableEq, Repr

/-- The field mapper of the framework, CJSON_LoadObjArray(Objs, ObjCnt, Buf, BufLen).
It reaches TblData through the addresses stored in the array, so the contents of
TblData at the time of the call are an input as well. -/
abbrev CJSON_LoadObjArray_t :=
  List CJSON_Obj_t → Nat → List Char → Nat → MSGLOGTBL_Data_t → CJSON_LoadResult

/-- The two ways a call of CJSON_ProcessFile can go as far as the file is
concerned: it gives up before the callback (the characters then left in the
buffer of the caller are carried along), or it has read the file into the buffer and
knows its length. -/
inductive CJSON_FileResult where
  | failed (JsonBuf : List Char)
  | read (JsonBuf : List Char) (JsonFileLen : Nat)
deriving DecidableEq, Repr

/-- The file side of CJSON_ProcessFile: file name, buffer size and the current
contents of the buffer give the outcome of reading. -/
abbrev CJSON_ReadFile_t := String → Nat → List Char → CJSON_FileResult

/-- Outcome of the OSAL calls of one dump: the value returned by OS_creat for a
file name, the value returned by the k-th OS_write, the value returned by
OS_close. -/
structure Storage where
  OS_creat : String → Int
  OS_write : Nat → Int
  OS_close : Int

/-! ## The functions of msglogtbl.c -/

/-- The record after CFE_PSP_MemSet(…, 0, …): every byte of both character
arrays is NUL and both numbers are 0. -/
def MSGLOGTBL_Data_zero (P : Platform) : MSGLOGTBL_Data_t :=
  { File := { PathBaseName := zeroChars P.OS_MAX_PATH_LEN,
              Extension := zeroChars P.MSGLOGTBL_FILE_EXT_MAX_LEN,
              EntryCnt := 0 },
    PlaybkDelay := 0 }

/-- MSGLOGTBL_Constructor (lines 78 to 88): bind the pointer, zero the whole
object, then set AppName and JsonObjCnt.  The statics TblData and JsonTblObjs
are not touched. -/
def MSGLOGTBL_Constructor (P : Platform) (IniTbl : INITBL_Class_t) (m : Module) : Module :=
  { m with
    MsgLogTbl :=
      { Data := MSGLOGTBL_Data_zero P
        AppName := INITBL_GetStrConfig IniTbl P.CFG_APP_CFE_NAME
        Loaded := false
        LastLoadStatus := 0
        LastLoadCnt := 0
        JsonObjCnt := (JsonTblObjs P).length
        JsonBuf := zeroChars P.MSGLOGTBL_JSON_FILE_MAX_CHAR
        JsonFileLen := 0 } }

/-- MSGLOGTBL_ResetStatus (lines 95 to 101). -/
def MSGLOGTBL_ResetStatus (P : Platform) (m : Module) : Module :=
  { m with
    MsgLogTbl :=
      { m.MsgLogTbl with
        LastLoadStatus := P.TBLMGR_STATUS_UNDEF
        LastLoadCnt := 0 } }

/-- LoadJsonData (lines 210 to 248), the callback of the load command.
It records the file length, copies the record of the owner into TblData, runs the
mapper on TblData, and either sends the load error event (table never loaded
and the count differs from JsonObjCnt) or copies TblData over the record of
the owner and stores the count. -/
def LoadJsonData (M : CJSON_LoadObjArray_t) (JsonFileLen : Nat) (m : Module) : Bool × Module :=
  let tbl : MSGLOGTBL_Class_t := { m.MsgLogTbl with JsonFileLen := JsonFileLen }
  let staged : MSGLOGTBL_Data_t := tbl.Data
  let r := M m.JsonTblObjs tbl.JsonObjCnt tbl.JsonBuf tbl.JsonFileLen staged
  if (!tbl.Loaded) && (r.ObjLoadCnt != tbl.JsonObjCnt) then
    (false,
      { MsgLogTbl := tbl
        TblData := r.TblData
        JsonTblObjs := r.Objs
        Events := m.Events ++ [Event.MSGLOGTBL_LOAD_ERR_EID r.ObjLoadCnt tbl.JsonObjCnt] })
  else
    (true,
      { MsgLogTbl := { tbl with Data := r.TblData, LastLoadCnt := r.ObjLoadCnt }
        TblData := r.TblData
        JsonTblObjs := r.Objs
        Events := m.Events })

/-- The interface of the framework routine CJSON_ProcessFile(Filename, JsonBuf,
MaxJsonFileChar, callback) as the load command relies on it: when the file
cannot be processed it returns FALSE without calling the callback; otherwise the
text of the file is in JsonBuf and the routine returns what the callback returns for
the length of the file. -/
def CJSON_ProcessFile (FS : CJSON_ReadFile_t) (Filename : String) (MaxJsonFileChar : Nat)
    (callback : Nat → Module → Bool × Module) (m : Module) : Bool × Module :=
  match FS Filename MaxJsonFileChar m.MsgLogTbl.JsonBuf with
  | .failed buf => (false, { m with MsgLogTbl := { m.MsgLogTbl with JsonBuf := buf } })
  | .read buf len => callback len { m with MsgLogTbl := { m.MsgLogTbl with JsonBuf := buf } }

/-- MSGLOGTBL_LoadCmd (lines 112 to 134).  The table pointer argument is not
used by the C function and is left out; LoadType is not used either. -/
def MSGLOGTBL_LoadCmd (P : Platform) (M : CJSON_LoadObjArray_t) (FS : CJSON_ReadFile_t)
    (LoadType : Nat) (Filename : String) (m : Module) : Bool × Module :=
  let r := CJSON_ProcessFile FS Filename P.MSGLOGTBL_JSON_FILE_MAX_CHAR (LoadJsonData M) m
  if r.1 then
    (true,
      { r.2 with
        MsgLogTbl :=
          { r.2.MsgLogTbl with
            Loaded := true
            LastLoadStatus := P.TBLMGR_STATUS_VALID } })
  else
    (false,
      { r.2 with
        MsgLogTbl := { r.2.MsgLogTbl with LastLoadStatus := P.TBLMGR_STATUS_INVALID } })

/-- The conversion %d applied to an unsigned table value. -/
def fmtd (n : Nat) : List Char :=
  (Nat.repr n).toList

/-- The seven records that MSGLOGTBL_DumpCmd formats with sprintf and hands to
OS_write, in order (lines 164 to 184).  Each is assumed to fit DumpRecord[256]. -/
def DumpRecords (AppName : String) (SysTimeStr : String) (d : MSGLOGTBL_Data_t) :
    List (List Char) :=
  [ "\x7b\n   \"app-name\": \"".toList ++ AppName.toList
      ++ "\",\n   \"tbl-name\": \"Message Log\",\n".toList,
    "   \"description\": \"Table dumped at ".toList ++ SysTimeStr.toList ++ "\",\n".toList,
    "   \"file\": \x7b\n".toList,
    "     \"path-base-name\": \"".toList ++ cstr d.File.PathBaseName ++ "\",\n".toList,
    "     \"extension\": \"".toList ++ cstr d.File.Extension ++ "\",\n".toList,
    "     \"entry-cnt\": ".toList ++ fmtd d.File.EntryCnt ++ "\n   \x7d,\n".toList,
    "   \"playbk-delay\": ".toList ++ fmtd d.PlaybkDelay ++ "\n\x7d\n".toList ]

/-- What one call of MSGLOGTBL_DumpCmd produces: the returned status, the
module data afterwards, and the records passed to OS_write. -/
structure DumpResult where
  RetStatus : Bool
  Mod : Module
  Written : List (List Char)
deriving DecidableEq, Repr

/-- MSGLOGTBL_DumpCmd (lines 150 to 201).  SysTimeStr is the text produced by
CFE_TIME_Print.  The values returned by OS_write and OS_close are discarded by
the C code, so they do not occur in the body. -/
def MSGLOGTBL_DumpCmd (P : Platform) (St : Storage) (SysTimeStr : String)
    (DumpType : Nat) (Filename : String) (m : Module) : DumpResult :=
  let FileHandle := St.OS_creat Filename
  if FileHandle ≥ P.OS_FS_SUCCESS then
    { RetStatus := true
      Mod := m
      Written := DumpRecords m.MsgLogTbl.AppName SysTimeStr m.MsgLogTbl.Data }
  else
    { RetStatus := false
      Mod := { m with
               Events := m.Events ++ [Event.MSGLOGTBL_DUMP_ERR_EID Filename FileHandle] }
      Written := [] }

/-! ## Command sequences -/

/-- One call on the table object after construction, together with what the
collaborators answer during that call. -/
inductive Cmd where
  | Load (FS : CJSON_ReadFile_t) (LoadType : Nat) (Filename : String)
  | Dump (St : Storage) (SysTimeStr : String) (DumpType : Nat) (Filename : String)
  | Reset

/-- Run one call; the boolean is the returned status (ResetStatus returns
nothing, which is reported as TRUE). -/
def Cmd.exec (P : Platform) (M : CJSON_LoadObjArray_t) (c : Cmd) (m : Module) : Bool × Module :=
  match c with
  | .Load FS LoadType Filename => MSGLOGTBL_LoadCmd P M FS LoadType Filename m
  | .Dump St SysTimeStr DumpType Filename =>
      let r := MSGLOGTBL_DumpCmd P St SysTimeStr DumpType Filename m
      (r.RetStatus, r.Mod)
  | .Reset => (true, MSGLOGTBL_ResetStatus P m)

/-- Is the call a load command. -/
def Cmd.isLoad : Cmd → Bool
  | .Load _ _ _ => true
  | _ => false

/-- The module data after a sequence of calls. -/
def runCmds (P : Platform) (M : CJSON_LoadObjArray_t) : List Cmd → Module → Module
  | [], m => m
  | c :: cs, m => runCmds P M cs (c.exec P M m).2

/-- Has some load command of the sequence returned TRUE. -/
def anyLoadAccepted (P : Platform) (M : CJSON_LoadObjArray_t) : List Cmd → Module → Bool
  | [], _ => false
  | c :: cs, m =>
      (c.isLoad && (c.exec P M m).1) || anyLoadAccepted P M cs (c.exec P M m).2

/-! ## Sample collaborators for concrete evaluation -/

/-- A sample choice of the build constants. -/
def samplePlatform : Platform :=
  { OS_MAX_PATH_LEN := 64
    MSGLOGTBL_FILE_EXT_MAX_LEN := 16
    MSGLOGTBL_JSON_FILE_MAX_CHAR := 2048
    sizeof_EntryCnt := 2
    sizeof_PlaybkDelay := 2
    OS_FS_SUCCESS := 0
    TBLMGR_STATUS_UNDEF := 0
    TBLMGR_STATUS_VALID := 1
    TBLMGR_STATUS_INVALID := 2
    CFG_APP_CFE_NAME := 0 }

/-- A sample initialisation table: every string parameter is the app name. -/
def sampleIniTbl : INITBL_Class_t :=
  { StrConfig := fun _ => "OSK_C_DEMO" }

/-- The statics of the file at program start, before the constructor: TblData is
zero-initialised and JsonTblObjs has its initialiser.  The object that the
constructor will be given is the caller-owned obj. -/
def staticInit (P : Platform) (obj : MSGLOGTBL_Class_t) : Module :=
  { MsgLogTbl := obj
    TblData := MSGLOGTBL_Data_zero P
    JsonTblObjs := JsonTblObjs P
    Events := [] }

/-- Some leftover contents of the caller-owned object before construction. -/
def sampleGarbage : MSGLOGTBL_Class_t :=
  { Data := { File := { PathBaseName := "junk".toList, Extension := "x".toList, EntryCnt := 7 },
              PlaybkDelay := 9 }
    AppName := ""
    Loaded := true
    LastLoadStatus := 5
    LastLoadCnt := 3
    JsonObjCnt := 11
    JsonBuf := []
    JsonFileLen := 1 }

/-- The sample module data right after construction. -/
def sampleBoot : Module :=
  MSGLOGTBL_Constructor samplePlatform sampleIniTbl (staticInit samplePlatform sampleGarbage)

/-- A sample mapper for a text with none of the four keys: nothing is written,
the count is 0. -/
def mapperNoKeys : CJSON_LoadObjArray_t :=
  fun objs _ _ _ td => { Objs := objs, TblData := td, ObjLoadCnt := 0 }

/-- A sample mapper for a text whose only bound key is playbk-delay with value v. -/
def mapperDelayOnly (v : Nat) : CJSON_LoadObjArray_t :=
  fun objs _ _ _ td => { Objs := objs, TblData := { td with PlaybkDelay := v }, ObjLoadCnt := 1 }

/-- A sample mapper for a text with the two string keys only. -/
def mapperTwoStrings : CJSON_LoadObjArray_t :=
  fun objs _ _ _ td =>
    { Objs := objs
      TblData := { td with File := { td.File with PathBaseName := "/cf/msg_".toList ++ [NUL],
                                                  Extension := ".txt".toList ++ [NUL] } }
      ObjLoadCnt := 2 }

/-- A sample mapper for a text with all four keys. -/
def mapperAllFour : CJSON_LoadObjArray_t :=
  fun objs _ _ _ _ =>
    { Objs := objs
      TblData := { File := { PathBaseName := "/cf/msg_".toList ++ [NUL],
                             Extension := ".txt".toList ++ [NUL],
                             EntryCnt := 5 },
                   PlaybkDelay := 3 }
      ObjLoadCnt := 4 }

/-- A file that is read: the buffer receives txt. -/
def fsReadable (txt : List Char) : CJSON_ReadFile_t :=
  fun _ _ _ => .read txt txt.length

/-- A file that cannot be opened: the buffer keeps its contents. -/
def fsMissing : CJSON_ReadFile_t :=
  fun _ _ old => .failed old

/-- Storage on which OS_creat returns h and every write and the close return 0. -/
def storageWith (h : Int) : Storage :=
  { OS_creat := fun _ => h, OS_write := fun _ => 0, OS_close := 0 }

/-- The sample module data after one accepted full load. -/
def sampleLoaded : Module :=
  (MSGLOGTBL_LoadCmd samplePlatform mapperAllFour (fsReadable []) 0 "/cf/tbl.json" sampleBoot).2

/-! ## Shared lemmas -/

/-- The load command unfolded for a file that cannot be processed. -/
theorem loadCmd_of_failed (P : Platform) (M : CJSON_LoadObjArray_t) (FS : CJSON_ReadFile_t)
    (LoadType : Nat) (Filename : String) (m : Module) (buf : List Char)
    (hF : FS Filename P.MSGLOGTBL_JSON_FILE_MAX_CHAR m.MsgLogTbl.JsonBuf = .failed buf) :
    MSGLOGTBL_LoadCmd P M FS LoadType Filename m =
      (false,
        { m with
          MsgLogTbl := { m.MsgLogTbl with
                         JsonBuf := buf
                         LastLoadStatus := P.TBLMGR_STATUS_INVALID } }) := by
  simp [MSGLOGTBL_LoadCmd, CJSON_ProcessFile, hF]

/-- The load command unfolded for a file that is read, when the callback rejects:
the table has never been loaded and the count differs from JsonObjCnt. -/
theorem loadCmd_of_read_reject (P : Platform) (M : CJSON_LoadObjArray_t)
    (FS : CJSON_ReadFile_t) (LoadType : Nat) (Filename : String) (m : Module)
    (buf : List Char) (len : Nat)
    (hF : FS Filename P.MSGLOGTBL_JSON_FILE_MAX_CHAR m.MsgLogTbl.JsonBuf = .read buf len)
    (hL : m.MsgLogTbl.Loaded = false)
    (hC : (M m.JsonTblObjs m.MsgLogTbl.JsonObjCnt buf len m.MsgLogTbl.Data).ObjLoadCnt
            ≠ m.MsgLogTbl.JsonObjCnt) :
    MSGLOGTBL_LoadCmd P M FS LoadType Filename m =
      (false,
        { MsgLogTbl := { m.MsgLogTbl with
                         JsonBuf := buf
                         JsonFileLen := len
                         LastLoadStatus := P.TBLMGR_STATUS_INVALID }
          TblData := (M m.JsonTblObjs m.MsgLogTbl.JsonObjCnt buf len m.MsgLogTbl.Data).TblData
          JsonTblObjs := (M m.JsonTblObjs m.MsgLogTbl.JsonObjCnt buf len m.MsgLogTbl.Data).Objs
          Events := m.Events ++
            [Event.MSGLOGTBL_LOAD_ERR_EID
              (M m.JsonTblObjs m.MsgLogTbl.JsonObjCnt buf len m.MsgLogTbl.Data).ObjLoadCnt
              m.MsgLogTbl.JsonObjCnt] }) := by
  simp [MSGLOGTBL_LoadCmd, CJSON_ProcessFile, LoadJsonData, hF, hL, hC]

/-- The load command unfolded for a file that is read, when the callback accepts:
the table was loaded before, or the count equals JsonObjCnt. -/
theorem loadCmd_of_read_accept (P : Platform) (M : CJSON_LoadObjArray_t)
    (FS : CJSON_ReadFile_t) (LoadType : Nat) (Filename : String) (m : Module)
    (buf : List Char) (len : Nat)
    (hF : FS Filename P.MSGLOGTBL_JSON_FILE_MAX_CHAR m.MsgLogTbl.JsonBuf = .read buf len)
    (hA : m.MsgLogTbl.Loaded = true ∨
          (M m.JsonTblObjs m.MsgLogTbl.JsonObjCnt buf len m.MsgLogTbl.Data).ObjLoadCnt
            = m.MsgLogTbl.JsonObjCnt) :
    MSGLOGTBL_LoadCmd P M FS LoadType Filename m =
      (true,
        { MsgLogTbl := { m.MsgLogTbl with
                         JsonBuf := buf
                         JsonFileLen := len
                         Data := (M m.JsonTblObjs m.MsgLogTbl.JsonObjCnt buf len
                                    m.MsgLogTbl.Data).TblData
                         LastLoadCnt := (M m.JsonTblObjs m.MsgLogTbl.JsonObjCnt buf len
                                           m.MsgLogTbl.Data).ObjLoadCnt
                         Loaded := true
                         LastLoadStatus := P.TBLMGR_STATUS_VALID }
          TblData := (M m.JsonTblObjs m.MsgLogTbl.JsonObjCnt buf len m.MsgLogTbl.Data).TblData
          JsonTblObjs := (M m.JsonTblObjs m.MsgLogTbl.JsonObjCnt buf len m.MsgLogTbl.Data).Objs
          Events := m.Events }) := by
  rcases hA with hA | hA
  · simp [MSGLOGTBL_LoadCmd, CJSON_ProcessFile, LoadJsonData, hF, hA]
  · simp [MSGLOGTBL_LoadCmd, CJSON_ProcessFile, LoadJsonData, hF, hA]

/-- The C string in a zeroed character array is empty. -/
theorem cstr_zeroChars (n : Nat) : cstr (zeroChars n) = [] := by
  cases n with
  | zero => rfl
  | succ k => simp [cstr, zeroChars, List.replicate_succ, List.takeWhile_cons]

/-- The array JsonTblObjs has four rows. -/
theorem jsonTblObjs_length (P : Platform) : (JsonTblObjs P).length = 4 := rfl

/-- A load command that returns FALSE changes neither the record, nor Loaded, nor
JsonObjCnt, nor LastLoadCnt, and it sets the status to invalid. -/
theorem loadCmd_false_frame (P : Platform) (M : CJSON_LoadObjArray_t) (FS : CJSON_ReadFile_t)
    (LoadType : Nat) (Filename : String) (m : Module)
    (h : (MSGLOGTBL_LoadCmd P M FS LoadType Filename m).1 = false) :
    (MSGLOGTBL_LoadCmd P M FS LoadType Filename m).2.MsgLogTbl.Data = m.MsgLogTbl.Data ∧
    (MSGLOGTBL_LoadCmd P M FS LoadType Filename m).2.MsgLogTbl.Loaded = m.MsgLogTbl.Loaded ∧
    (MSGLOGTBL_LoadCmd P M FS LoadType Filename m).2.MsgLogTbl.JsonObjCnt
      = m.MsgLogTbl.JsonObjCnt ∧
    (MSGLOGTBL_LoadCmd P M FS LoadType Filename m).2.MsgLogTbl.LastLoadCnt
      = m.MsgLogTbl.LastLoadCnt ∧
    (MSGLOGTBL_LoadCmd P M FS LoadType Filename m).2.MsgLogTbl.LastLoadStatus
      = P.TBLMGR_STATUS_INVALID := by
  cases hF : FS Filename P.MSGLOGTBL_JSON_FILE_MAX_CHAR m.MsgLogTbl.JsonBuf with
  | failed buf =>
    rw [loadCmd_of_failed P M FS LoadType Filename m buf hF]
    exact ⟨rfl, rfl, rfl, rfl, rfl⟩
  | read buf len =>
    by_cases hA : m.MsgLogTbl.Loaded = true ∨
        (M m.JsonTblObjs m.MsgLogTbl.JsonObjCnt buf len m.MsgLogTbl.Data).ObjLoadCnt
          = m.MsgLogTbl.JsonObjCnt
    · rw [loadCmd_of_read_accept P M FS LoadType Filename m buf len hF hA] at h
      cases h
    · have hL : m.MsgLogTbl.Loaded = false := by
        cases hb : m.MsgLogTbl.Loaded with
        | false => rfl
        | true => exact absurd (Or.inl hb) hA
      have hC : (M m.JsonTblObjs m.MsgLogTbl.JsonObjCnt buf len m.MsgLogTbl.Data).ObjLoadCnt
          ≠ m.MsgLogTbl.JsonObjCnt := fun hc => hA (Or.inr hc)
      rw [loadCmd_of_read_reject P M FS LoadType Filename m buf len hF hL hC]
      exact ⟨rfl, hL.symm ▸ rfl, rfl, rfl, rfl⟩

/-- A call that is not an accepted load keeps a never-loaded table never loaded:
Loaded stays FALSE, the record stays zeroed and JsonObjCnt stays 4. -/
theorem exec_keeps_unloaded (P : Platform) (M : CJSON_LoadObjArray_t) (c : Cmd) (m : Module)
    (hI : m.MsgLogTbl.Loaded = false ∧ m.MsgLogTbl.Data = MSGLOGTBL_Data_zero P ∧
          m.MsgLogTbl.JsonObjCnt = 4)
    (hc : (c.isLoad && (c.exec P M m).1) = false) :
    (c.exec P M m).2.MsgLogTbl.Loaded = false ∧
    (c.exec P M m).2.MsgLogTbl.Data = MSGLOGTBL_Data_zero P ∧
    (c.exec P M m).2.MsgLogTbl.JsonObjCnt = 4 := by
  obtain ⟨h1, h2, h3⟩ := hI
  cases c with
  | Load FS LoadType Filename =>
    have hr : (MSGLOGTBL_LoadCmd P M FS LoadType Filename m).1 = false := by
      simpa [Cmd.isLoad, Cmd.exec] using hc
    obtain ⟨e1, e2, e3, _, _⟩ := loadCmd_false_frame P M FS LoadType Filename m hr
    simp only [Cmd.exec]
    exact ⟨e2.trans h1, e1.trans h2, e3.trans h3⟩
  | Dump St SysTimeStr DumpType Filename =>
    simp only [Cmd.exec, MSGLOGTBL_DumpCmd]
    split <;> exact ⟨h1, h2, h3⟩
  | Reset =>
    simp only [Cmd.exec, MSGLOGTBL_ResetStatus]
    exact ⟨h1, h2, h3⟩

/-- A sequence of calls without an accepted load keeps a never-loaded table never
loaded. -/
theorem runCmds_keeps_unloaded (P : Platform) (M : CJSON_LoadObjArray_t) (cmds : List Cmd) :
    ∀ m : Module,
      (m.MsgLogTbl.Loaded = false ∧ m.MsgLogTbl.Data = MSGLOGTBL_Data_zero P ∧
        m.MsgLogTbl.JsonObjCnt = 4) →
      anyLoadAccepted P M cmds m = false →
      (runCmds P M cmds m).MsgLogTbl.Loaded = false ∧
      (runCmds P M cmds m).MsgLogTbl.Data = MSGLOGTBL_Data_zero P ∧
      (runCmds P M cmds m).MsgLogTbl.JsonObjCnt = 4 := by
  induction cmds with
  | nil => intro m hI _; exact hI
  | cons c cs ih =>
    intro m hI h
    simp only [anyLoadAccepted, Bool.or_eq_false_iff] at h
    exact ih _ (exec_keeps_unloaded P M c m hI h.1) h.2

/-! ## The claims -/

/-- C1: if MSGLOGTBL_LoadCmd returns FALSE, which happens either because
CJSON_ProcessFile fails before the callback or because LoadJsonData rejects the
parse, then the record Data is equal to the record before the call (so each of
its four fields is), Loaded is unchanged and LastLoadStatus is
TBLMGR_STATUS_INVALID. -/
theorem C1_rejected_load_keeps_record (P : Platform) (M : CJSON_LoadObjArray_t)
    (FS : CJSON_ReadFile_t) (LoadType : Nat) (Filename : String) (m : Module)
    (h : (MSGLOGTBL_LoadCmd P M FS LoadType Filename m).1 = false) :
    ((∃ buf, FS Filename P.MSGLOGTBL_JSON_FILE_MAX_CHAR m.MsgLogTbl.JsonBuf = .failed buf) ∨
      (∃ buf len,
        FS Filename P.MSGLOGTBL_JSON_FILE_MAX_CHAR m.MsgLogTbl.JsonBuf = .read buf len ∧
        (LoadJsonData M len
          { m with MsgLogTbl := { m.MsgLogTbl with JsonBuf := buf } }).1 = false)) ∧
    (MSGLOGTBL_LoadCmd P M FS LoadType Filename m).2.MsgLogTbl.Data = m.MsgLogTbl.Data ∧
    (MSGLOGTBL_LoadCmd P M FS LoadType Filename m).2.MsgLogTbl.Data.File.PathBaseName
      = m.MsgLogTbl.Data.File.PathBaseName ∧
    (MSGLOGTBL_LoadCmd P M FS LoadType Filename m).2.MsgLogTbl.Data.File.Extension
      = m.MsgLogTbl.Data.File.Extension ∧
    (MSGLOGTBL_LoadCmd P M FS LoadType Filename m).2.MsgLogTbl.Data.File.EntryCnt
      = m.MsgLogTbl.Data.File.EntryCnt ∧
    (MSGLOGTBL_LoadCmd P M FS LoadType Filename m).2.MsgLogTbl.Data.PlaybkDelay
      = m.MsgLogTbl.Data.PlaybkDelay ∧
    (MSGLOGTBL_LoadCmd P M FS LoadType Filename m).2.MsgLogTbl.Loaded = m.MsgLogTbl.Loaded ∧
    (MSGLOGTBL_LoadCmd P M FS LoadType Filename m).2.MsgLogTbl.LastLoadStatus
      = P.TBLMGR_STATUS_INVALID := by
  obtain ⟨e1, e2, _, _, e5⟩ := loadCmd_false_frame P M FS LoadType Filename m h
  refine ⟨?_, e1, by rw [e1], by rw [e1], by rw [e1], by rw [e1], e2, e5⟩
  cases hF : FS Filename P.MSGLOGTBL_JSON_FILE_MAX_CHAR m.MsgLogTbl.JsonBuf with
  | failed buf => exact Or.inl ⟨buf, rfl⟩
  | read buf len =>
    refine Or.inr ⟨buf, len, rfl, ?_⟩
    simp only [MSGLOGTBL_LoadCmd, CJSON_ProcessFile, hF] at h
    cases hb : (LoadJsonData M len
        { m with MsgLogTbl := { m.MsgLogTbl with JsonBuf := buf } }).1 with
    | false => rfl
    | true => simp [hb] at h

/-- C1 on concrete inputs: a first load that finds two of the four keys, and a load
of a missing file on a loaded table, both return FALSE and keep the record. -/
theorem C1_witness :
    ((MSGLOGTBL_LoadCmd samplePlatform mapperTwoStrings (fsReadable "abc".toList) 0
        "/cf/tbl.json" sampleBoot).1 = false ∧
      (MSGLOGTBL_LoadCmd samplePlatform mapperTwoStrings (fsReadable "abc".toList) 0
        "/cf/tbl.json" sampleBoot).2.MsgLogTbl.Data = sampleBoot.MsgLogTbl.Data) ∧
    ((MSGLOGTBL_LoadCmd samplePlatform mapperAllFour fsMissing 0
        "/cf/none.json" sampleLoaded).1 = false ∧
      (MSGLOGTBL_LoadCmd samplePlatform mapperAllFour fsMissing 0
        "/cf/none.json" sampleLoaded).2.MsgLogTbl.Data = sampleLoaded.MsgLogTbl.Data) :=
  ⟨⟨by decide,
     (C1_rejected_load_keeps_record samplePlatform mapperTwoStrings
        (fsReadable "abc".toList) 0 "/cf/tbl.json" sampleBoot (by decide)).2.1⟩,
   ⟨by decide,
     (C1_rejected_load_keeps_record samplePlatform mapperAllFour fsMissing 0
        "/cf/none.json" sampleLoaded (by decide)).2.1⟩⟩

/-- C2: in every state reached from MSGLOGTBL_Constructor by a sequence of LoadCmd,
DumpCmd and ResetStatus calls in which no LoadCmd returned TRUE, Loaded is FALSE
and the record is all-zero (both character arrays zeroed, so PathBaseName and
Extension are empty strings, EntryCnt = 0, PlaybkDelay = 0); and a further LoadCmd
whose file is read and for which the mapper returns a count other than JsonObjCnt
= 4 returns FALSE and leaves the record all-zero and Loaded FALSE. -/
theorem C2_never_loaded_stays_zero (P : Platform) (M : CJSON_LoadObjArray_t)
    (IniTbl : INITBL_Class_t) (m0 : Module) (cmds : List Cmd)
    (h : anyLoadAccepted P M cmds (MSGLOGTBL_Constructor P IniTbl m0) = false) :
    (runCmds P M cmds (MSGLOGTBL_Constructor P IniTbl m0)).MsgLogTbl.Loaded = false ∧
    (runCmds P M cmds (MSGLOGTBL_Constructor P IniTbl m0)).MsgLogTbl.Data
      = MSGLOGTBL_Data_zero P ∧
    cstr (runCmds P M cmds
      (MSGLOGTBL_Constructor P IniTbl m0)).MsgLogTbl.Data.File.PathBaseName = [] ∧
    cstr (runCmds P M cmds
      (MSGLOGTBL_Constructor P IniTbl m0)).MsgLogTbl.Data.File.Extension = [] ∧
    (runCmds P M cmds (MSGLOGTBL_Constructor P IniTbl m0)).MsgLogTbl.Data.File.EntryCnt = 0 ∧
    (runCmds P M cmds (MSGLOGTBL_Constructor P IniTbl m0)).MsgLogTbl.Data.PlaybkDelay = 0 ∧
    (runCmds P M cmds (MSGLOGTBL_Constructor P IniTbl m0)).MsgLogTbl.JsonObjCnt = 4 ∧
    ∀ (FS : CJSON_ReadFile_t) (LoadType : Nat) (Filename : String) (buf : List Char)
      (len : Nat),
      FS Filename P.MSGLOGTBL_JSON_FILE_MAX_CHAR
        (runCmds P M cmds (MSGLOGTBL_Constructor P IniTbl m0)).MsgLogTbl.JsonBuf
          = .read buf len →
      (M (runCmds P M cmds (MSGLOGTBL_Constructor P IniTbl m0)).JsonTblObjs 4 buf len
          (MSGLOGTBL_Data_zero P)).ObjLoadCnt ≠ 4 →
      (MSGLOGTBL_LoadCmd P M FS LoadType Filename
        (runCmds P M cmds (MSGLOGTBL_Constructor P IniTbl m0))).1 = false ∧
      (MSGLOGTBL_LoadCmd P M FS LoadType Filename
        (runCmds P M cmds (MSGLOGTBL_Constructor P IniTbl m0))).2.MsgLogTbl.Data
          = MSGLOGTBL_Data_zero P ∧
      (MSGLOGTBL_LoadCmd P M FS LoadType Filename
        (runCmds P M cmds (MSGLOGTBL_Constructor P IniTbl m0))).2.MsgLogTbl.Loaded = false := by
  have hI := runCmds_keeps_unloaded P M cmds (MSGLOGTBL_Constructor P IniTbl m0)
    ⟨rfl, rfl, rfl⟩ h
  generalize runCmds P M cmds (MSGLOGTBL_Constructor P IniTbl m0) = m at hI ⊢
  obtain ⟨h1, h2, h3⟩ := hI
  refine ⟨h1, h2, ?_, ?_, ?_, ?_, h3, ?_⟩
  · rw [h2]; exact cstr_zeroChars _
  · rw [h2]; exact cstr_zeroChars _
  · rw [h2]; rfl
  · rw [h2]; rfl
  · intro FS LoadType Filename buf len hF hC
    have hC2 : (M m.JsonTblObjs m.MsgLogTbl.JsonObjCnt buf len m.MsgLogTbl.Data).ObjLoadCnt
        ≠ m.MsgLogTbl.JsonObjCnt := by rw [h2, h3]; exact hC
    rw [loadCmd_of_read_reject P M FS LoadType Filename m buf len hF h1 hC2]
    exact ⟨rfl, h2, h1⟩

/-- C2 on a concrete run: after construction, a status reset, a rejected first load
(two of four keys), a dump and a load of a missing file, the table is still never
loaded and all-zero. -/
theorem C2_witness :
    anyLoadAccepted samplePlatform mapperTwoStrings
      [Cmd.Reset, Cmd.Load (fsReadable "abc".toList) 0 "/cf/tbl.json",
       Cmd.Dump (storageWith 3) "1980-001-00:00:00.00000" 0 "/cf/dump.json",
       Cmd.Load fsMissing 0 "/cf/none.json"]
      (MSGLOGTBL_Constructor samplePlatform sampleIniTbl
        (staticInit samplePlatform sampleGarbage)) = false ∧
    (runCmds samplePlatform mapperTwoStrings
      [Cmd.Reset, Cmd.Load (fsReadable "abc".toList) 0 "/cf/tbl.json",
       Cmd.Dump (storageWith 3) "1980-001-00:00:00.00000" 0 "/cf/dump.json",
       Cmd.Load fsMissing 0 "/cf/none.json"]
      (MSGLOGTBL_Constructor samplePlatform sampleIniTbl
        (staticInit samplePlatform sampleGarbage))).MsgLogTbl.Loaded = false ∧
    (runCmds samplePlatform mapperTwoStrings
      [Cmd.Reset, Cmd.Load (fsReadable "abc".toList) 0 "/cf/tbl.json",
       Cmd.Dump (storageWith 3) "1980-001-00:00:00.00000" 0 "/cf/dump.json",
       Cmd.Load fsMissing 0 "/cf/none.json"]
      (MSGLOGTBL_Constructor samplePlatform sampleIniTbl
        (staticInit samplePlatform sampleGarbage))).MsgLogTbl.Data
      = MSGLOGTBL_Data_zero samplePlatform :=
  ⟨by decide,
   (C2_never_loaded_stays_zero samplePlatform mapperTwoStrings sampleIniTbl
      (staticInit samplePlatform sampleGarbage) _ (by decide)).1,
   (C2_never_loaded_stays_zero samplePlatform mapperTwoStrings sampleIniTbl
      (staticInit samplePlatform sampleGarbage) _ (by decide)).2.1⟩

/-- C3: on a table with Loaded = TRUE, a LoadCmd whose file is read and in which the
mapper finds only the key playbk-delay (it writes only the PlaybkDelay member of
the staging record, with value v, and returns the count 1) returns TRUE, sets
Data.PlaybkDelay to v and leaves PathBaseName, Extension and EntryCnt as before. -/
theorem C3_delay_only_reload (P : Platform) (M : CJSON_LoadObjArray_t)
    (FS : CJSON_ReadFile_t) (LoadType : Nat) (Filename : String) (m : Module)
    (buf : List Char) (len v : Nat) (objs : List CJSON_Obj_t)
    (hL : m.MsgLogTbl.Loaded = true)
    (hF : FS Filename P.MSGLOGTBL_JSON_FILE_MAX_CHAR m.MsgLogTbl.JsonBuf = .read buf len)
    (hM : M m.JsonTblObjs m.MsgLogTbl.JsonObjCnt buf len m.MsgLogTbl.Data =
            { Objs := objs
              TblData := { m.MsgLogTbl.Data with PlaybkDelay := v }
              ObjLoadCnt := 1 }) :
    (MSGLOGTBL_LoadCmd P M FS LoadType Filename m).1 = true ∧
    (MSGLOGTBL_LoadCmd P M FS LoadType Filename m).2.MsgLogTbl.Data.PlaybkDelay = v ∧
    (MSGLOGTBL_LoadCmd P M FS LoadType Filename m).2.MsgLogTbl.Data.File.PathBaseName
      = m.MsgLogTbl.Data.File.PathBaseName ∧
    (MSGLOGTBL_LoadCmd P M FS LoadType Filename m).2.MsgLogTbl.Data.File.Extension
      = m.MsgLogTbl.Data.File.Extension ∧
    (MSGLOGTBL_LoadCmd P M FS LoadType Filename m).2.MsgLogTbl.Data.File.EntryCnt
      = m.MsgLogTbl.Data.File.EntryCnt := by
  rw [loadCmd_of_read_accept P M FS LoadType Filename m buf len hF (Or.inl hL), hM]
  exact ⟨rfl, rfl, rfl, rfl, rfl⟩

/-- C3 on a concrete input: the loaded sample table reloaded with playbk-delay = 42. -/
theorem C3_witness :
    sampleLoaded.MsgLogTbl.Loaded = true ∧
    (MSGLOGTBL_LoadCmd samplePlatform (mapperDelayOnly 42) (fsReadable "abc".toList) 0
      "/cf/delay.json" sampleLoaded).1 = true ∧
    (MSGLOGTBL_LoadCmd samplePlatform (mapperDelayOnly 42) (fsReadable "abc".toList) 0
      "/cf/delay.json" sampleLoaded).2.MsgLogTbl.Data.PlaybkDelay = 42 ∧
    (MSGLOGTBL_LoadCmd samplePlatform (mapperDelayOnly 42) (fsReadable "abc".toList) 0
      "/cf/delay.json" sampleLoaded).2.MsgLogTbl.Data.File.PathBaseName
      = sampleLoaded.MsgLogTbl.Data.File.PathBaseName ∧
    (MSGLOGTBL_LoadCmd samplePlatform (mapperDelayOnly 42) (fsReadable "abc".toList) 0
      "/cf/delay.json" sampleLoaded).2.MsgLogTbl.Data.File.Extension
      = sampleLoaded.MsgLogTbl.Data.File.Extension ∧
    (MSGLOGTBL_LoadCmd samplePlatform (mapperDelayOnly 42) (fsReadable "abc".toList) 0
      "/cf/delay.json" sampleLoaded).2.MsgLogTbl.Data.File.EntryCnt
      = sampleLoaded.MsgLogTbl.Data.File.EntryCnt :=
  ⟨by decide,
   C3_delay_only_reload samplePlatform (mapperDelayOnly 42) (fsReadable "abc".toList) 0
     "/cf/delay.json" sampleLoaded "abc".toList 3 42 sampleLoaded.JsonTblObjs
     (by decide) rfl rfl⟩

/-- C4: when the file is read and either (a) Loaded is FALSE and the mapper returns
the count JsonObjCnt, or (b) Loaded is TRUE and the mapper returns a non-zero
count, MSGLOGTBL_LoadCmd returns TRUE and afterwards the record is the staging
record the mapper produced from a copy of the prior record, LastLoadStatus is
TBLMGR_STATUS_VALID, Loaded is TRUE and LastLoadCnt is the returned count. -/
theorem C4_accepted_load_commits (P : Platform) (M : CJSON_LoadObjArray_t)
    (FS : CJSON_ReadFile_t) (LoadType : Nat) (Filename : String) (m : Module)
    (buf : List Char) (len : Nat)
    (hF : FS Filename P.MSGLOGTBL_JSON_FILE_MAX_CHAR m.MsgLogTbl.JsonBuf = .read buf len)
    (hA : (m.MsgLogTbl.Loaded = false ∧
            (M m.JsonTblObjs m.MsgLogTbl.JsonObjCnt buf len m.MsgLogTbl.Data).ObjLoadCnt
              = m.MsgLogTbl.JsonObjCnt) ∨
          (m.MsgLogTbl.Loaded = true ∧
            (M m.JsonTblObjs m.MsgLogTbl.JsonObjCnt buf len m.MsgLogTbl.Data).ObjLoadCnt
              ≠ 0)) :
    (MSGLOGTBL_LoadCmd P M FS LoadType Filename m).1 = true ∧
    (MSGLOGTBL_LoadCmd P M FS LoadType Filename m).2.MsgLogTbl.Data
      = (M m.JsonTblObjs m.MsgLogTbl.JsonObjCnt buf len m.MsgLogTbl.Data).TblData ∧
    (MSGLOGTBL_LoadCmd P M FS LoadType Filename m).2.MsgLogTbl.LastLoadStatus
      = P.TBLMGR_STATUS_VALID ∧
    (MSGLOGTBL_LoadCmd P M FS LoadType Filename m).2.MsgLogTbl.Loaded = true ∧
    (MSGLOGTBL_LoadCmd P M FS LoadType Filename m).2.MsgLogTbl.LastLoadCnt
      = (M m.JsonTblObjs m.MsgLogTbl.JsonObjCnt buf len m.MsgLogTbl.Data).ObjLoadCnt := by
  have hA2 : m.MsgLogTbl.Loaded = true ∨
      (M m.JsonTblObjs m.MsgLogTbl.JsonObjCnt buf len m.MsgLogTbl.Data).ObjLoadCnt
        = m.MsgLogTbl.JsonObjCnt := by
    rcases hA with ⟨_, hc⟩ | ⟨hl, _⟩
    · exact Or.inr hc
    · exact Or.inl hl
  rw [loadCmd_of_read_accept P M FS LoadType Filename m buf len hF hA2]
  exact ⟨rfl, rfl, rfl, rfl, rfl⟩

/-- C4 on concrete inputs: case (a), the first full load of the freshly constructed
sample table, and case (b), a one-key reload of the loaded sample table. -/
theorem C4_witness :
    ((MSGLOGTBL_LoadCmd samplePlatform mapperAllFour (fsReadable "abc".toList) 0
        "/cf/tbl.json" sampleBoot).1 = true ∧
      (MSGLOGTBL_LoadCmd samplePlatform mapperAllFour (fsReadable "abc".toList) 0
        "/cf/tbl.json" sampleBoot).2.MsgLogTbl.LastLoadCnt = 4) ∧
    ((MSGLOGTBL_LoadCmd samplePlatform (mapperDelayOnly 42) (fsReadable "abc".toList) 0
        "/cf/delay.json" sampleLoaded).1 = true ∧
      (MSGLOGTBL_LoadCmd samplePlatform (mapperDelayOnly 42) (fsReadable "abc".toList) 0
        "/cf/delay.json" sampleLoaded).2.MsgLogTbl.LastLoadCnt = 1) :=
  ⟨⟨(C4_accepted_load_commits samplePlatform mapperAllFour (fsReadable "abc".toList) 0
        "/cf/tbl.json" sampleBoot "abc".toList 3 rfl (Or.inl ⟨by decide, by decide⟩)).1,
     (C4_accepted_load_commits samplePlatform mapperAllFour (fsReadable "abc".toList) 0
        "/cf/tbl.json" sampleBoot "abc".toList 3 rfl
        (Or.inl ⟨by decide, by decide⟩)).2.2.2.2⟩,
   ⟨(C4_accepted_load_commits samplePlatform (mapperDelayOnly 42)
        (fsReadable "abc".toList) 0 "/cf/delay.json" sampleLoaded "abc".toList 3 rfl
        (Or.inr ⟨by decide, by decide⟩)).1,
     (C4_accepted_load_commits samplePlatform (mapperDelayOnly 42)
        (fsReadable "abc".toList) 0 "/cf/delay.json" sampleLoaded "abc".toList 3 rfl
        (Or.inr ⟨by decide, by decide⟩)).2.2.2.2⟩⟩

/-- C6 fails as stated: on the freshly constructed sample table a first load whose
file is read and whose mapper populates 2 of the 4 fields is rejected, and
afterwards LastLoadCnt is still 0, not 2 (LastLoadStatus is the invalid status). -/
theorem C6_counterexample :
    fsReadable "abc".toList "/cf/tbl.json" samplePlatform.MSGLOGTBL_JSON_FILE_MAX_CHAR
      sampleBoot.MsgLogTbl.JsonBuf = .read "abc".toList 3 ∧
    (mapperTwoStrings sampleBoot.JsonTblObjs sampleBoot.MsgLogTbl.JsonObjCnt "abc".toList 3
      sampleBoot.MsgLogTbl.Data).ObjLoadCnt = 2 ∧
    (MSGLOGTBL_LoadCmd samplePlatform mapperTwoStrings (fsReadable "abc".toList) 0
      "/cf/tbl.json" sampleBoot).1 = false ∧
    (MSGLOGTBL_LoadCmd samplePlatform mapperTwoStrings (fsReadable "abc".toList) 0
      "/cf/tbl.json" sampleBoot).2.MsgLogTbl.LastLoadStatus
      = samplePlatform.TBLMGR_STATUS_INVALID ∧
    (MSGLOGTBL_LoadCmd samplePlatform mapperTwoStrings (fsReadable "abc".toList) 0
      "/cf/tbl.json" sampleBoot).2.MsgLogTbl.LastLoadCnt = 0 ∧
    (MSGLOGTBL_LoadCmd samplePlatform mapperTwoStrings (fsReadable "abc".toList) 0
      "/cf/tbl.json" sampleBoot).2.MsgLogTbl.LastLoadCnt
      ≠ (mapperTwoStrings sampleBoot.JsonTblObjs sampleBoot.MsgLogTbl.JsonObjCnt
          "abc".toList 3 sampleBoot.MsgLogTbl.Data).ObjLoadCnt := by
  refine ⟨rfl, rfl, ?_, ?_, ?_, ?_⟩ <;> decide

/-- C6 as amended: after a MSGLOGTBL_LoadCmd attempt whose file is read, if the
attempt is accepted then LastLoadCnt is the count the mapper returned on that
attempt and LastLoadStatus is the valid status; if it is rejected then
LastLoadCnt keeps the value it had before the attempt and LastLoadStatus is the
invalid status. -/
theorem C6_last_load_cnt (P : Platform) (M : CJSON_LoadObjArray_t)
    (FS : CJSON_ReadFile_t) (LoadType : Nat) (Filename : String) (m : Module)
    (buf : List Char) (len : Nat)
    (hF : FS Filename P.MSGLOGTBL_JSON_FILE_MAX_CHAR m.MsgLogTbl.JsonBuf = .read buf len) :
    ((MSGLOGTBL_LoadCmd P M FS LoadType Filename m).1 = true →
      (MSGLOGTBL_LoadCmd P M FS LoadType Filename m).2.MsgLogTbl.LastLoadCnt
        = (M m.JsonTblObjs m.MsgLogTbl.JsonObjCnt buf len m.MsgLogTbl.Data).ObjLoadCnt ∧
      (MSGLOGTBL_LoadCmd P M FS LoadType Filename m).2.MsgLogTbl.LastLoadStatus
        = P.TBLMGR_STATUS_VALID) ∧
    ((MSGLOGTBL_LoadCmd P M FS LoadType Filename m).1 = false →
      (MSGLOGTBL_LoadCmd P M FS LoadType Filename m).2.MsgLogTbl.LastLoadCnt
        = m.MsgLogTbl.LastLoadCnt ∧
      (MSGLOGTBL_LoadCmd P M FS LoadType Filename m).2.MsgLogTbl.LastLoadStatus
        = P.TBLMGR_STATUS_INVALID) := by
  constructor
  · intro hT
    by_cases hA : m.MsgLogTbl.Loaded = true ∨
        (M m.JsonTblObjs m.MsgLogTbl.JsonObjCnt buf len m.MsgLogTbl.Data).ObjLoadCnt
          = m.MsgLogTbl.JsonObjCnt
    · rw [loadCmd_of_read_accept P M FS LoadType Filename m buf len hF hA]
      exact ⟨rfl, rfl⟩
    · have hL : m.MsgLogTbl.Loaded = false := by
        cases hb : m.MsgLogTbl.Loaded with
        | false => rfl
        | true => exact absurd (Or.inl hb) hA
      have hC : (M m.JsonTblObjs m.MsgLogTbl.JsonObjCnt buf len m.MsgLogTbl.Data).ObjLoadCnt
          ≠ m.MsgLogTbl.JsonObjCnt := fun hc => hA (Or.inr hc)
      rw [loadCmd_of_read_reject P M FS LoadType Filename m buf len hF hL hC] at hT
      cases hT
  · intro hR
    obtain ⟨_, _, _, e4, e5⟩ := loadCmd_false_frame P M FS LoadType Filename m hR
    exact ⟨e4, e5⟩

/-- C6 as amended, on concrete inputs: the accepted full load of the fresh sample table
stores the count 4, and a rejected two-key load after it was reset keeps the count. -/
theorem C6_witness :
    ((MSGLOGTBL_LoadCmd samplePlatform mapperAllFour (fsReadable "abc".toList) 0
        "/cf/tbl.json" sampleBoot).1 = true ∧
      (MSGLOGTBL_LoadCmd samplePlatform mapperAllFour (fsReadable "abc".toList) 0
        "/cf/tbl.json" sampleBoot).2.MsgLogTbl.LastLoadCnt = 4) ∧
    ((MSGLOGTBL_LoadCmd samplePlatform mapperTwoStrings (fsReadable "abc".toList) 0
        "/cf/tbl.json" sampleBoot).1 = false ∧
      (MSGLOGTBL_LoadCmd samplePlatform mapperTwoStrings (fsReadable "abc".toList) 0
        "/cf/tbl.json" sampleBoot).2.MsgLogTbl.LastLoadCnt
        = sampleBoot.MsgLogTbl.LastLoadCnt) :=
  ⟨⟨by decide,
     ((C6_last_load_cnt samplePlatform mapperAllFour (fsReadable "abc".toList) 0
        "/cf/tbl.json" sampleBoot "abc".toList 3 rfl).1 (by decide)).1⟩,
   ⟨by decide,
     ((C6_last_load_cnt samplePlatform mapperTwoStrings (fsReadable "abc".toList) 0
        "/cf/tbl.json" sampleBoot "abc".toList 3 rfl).2 (by decide)).1⟩⟩

/-- C7: MSGLOGTBL_DumpCmd returns FALSE exactly when OS_creat returns a value below
OS_FS_SUCCESS (so it reports failure whenever creating the destination fails, and
a reported failure means a storage operation failed); for fixed storage outcomes
the returned status is the same for every content of the record; and in both
cases the table object (record, Loaded, LastLoadStatus, LastLoadCnt) is unchanged. -/
theorem C7_dump_status_and_frame (P : Platform) (St : Storage) (SysTimeStr : String)
    (DumpType : Nat) (Filename : String) (m : Module) :
    ((MSGLOGTBL_DumpCmd P St SysTimeStr DumpType Filename m).RetStatus = false ↔
      St.OS_creat Filename < P.OS_FS_SUCCESS) ∧
    (∀ d : MSGLOGTBL_Data_t,
      (MSGLOGTBL_DumpCmd P St SysTimeStr DumpType Filename
        { m with MsgLogTbl := { m.MsgLogTbl with Data := d } }).RetStatus
        = (MSGLOGTBL_DumpCmd P St SysTimeStr DumpType Filename m).RetStatus) ∧
    (MSGLOGTBL_DumpCmd P St SysTimeStr DumpType Filename m).Mod.MsgLogTbl = m.MsgLogTbl ∧
    (MSGLOGTBL_DumpCmd P St SysTimeStr DumpType Filename m).Mod.MsgLogTbl.Data
      = m.MsgLogTbl.Data ∧
    (MSGLOGTBL_DumpCmd P St SysTimeStr DumpType Filename m).Mod.MsgLogTbl.Loaded
      = m.MsgLogTbl.Loaded ∧
    (MSGLOGTBL_DumpCmd P St SysTimeStr DumpType Filename m).Mod.MsgLogTbl.LastLoadStatus
      = m.MsgLogTbl.LastLoadStatus ∧
    (MSGLOGTBL_DumpCmd P St SysTimeStr DumpType Filename m).Mod.MsgLogTbl.LastLoadCnt
      = m.MsgLogTbl.LastLoadCnt := by
  by_cases hc : St.OS_creat Filename ≥ P.OS_FS_SUCCESS
  · have hn : ¬ St.OS_creat Filename < P.OS_FS_SUCCESS := not_lt.mpr hc
    simp [MSGLOGTBL_DumpCmd, hc, hn]
  · have hl : St.OS_creat Filename < P.OS_FS_SUCCESS := not_le.mp hc
    simp [MSGLOGTBL_DumpCmd, hc, hl]

/-- C7 on concrete inputs: with OS_creat returning -1 the dump of the loaded sample
table returns FALSE, with OS_creat returning 3 it returns TRUE, and the table
object is the same afterwards in both cases. -/
theorem C7_witness :
    (MSGLOGTBL_DumpCmd samplePlatform (storageWith (-1)) "1980-001-00:00:00.00000" 0
      "/cf/dump.json" sampleLoaded).RetStatus = false ∧
    (MSGLOGTBL_DumpCmd samplePlatform (storageWith 3) "1980-001-00:00:00.00000" 0
      "/cf/dump.json" sampleLoaded).RetStatus = true ∧
    (MSGLOGTBL_DumpCmd samplePlatform (storageWith (-1)) "1980-001-00:00:00.00000" 0
      "/cf/dump.json" sampleLoaded).Mod.MsgLogTbl = sampleLoaded.MsgLogTbl ∧
    (MSGLOGTBL_DumpCmd samplePlatform (storageWith 3) "1980-001-00:00:00.00000" 0
      "/cf/dump.json" sampleLoaded).Mod.MsgLogTbl = sampleLoaded.MsgLogTbl :=
  ⟨(C7_dump_status_and_frame samplePlatform (storageWith (-1)) "1980-001-00:00:00.00000" 0
      "/cf/dump.json" sampleLoaded).1.mpr (by decide),
   by decide,
   (C7_dump_status_and_frame samplePlatform (storageWith (-1)) "1980-001-00:00:00.00000" 0
      "/cf/dump.json" sampleLoaded).2.2.1,
   (C7_dump_status_and_frame samplePlatform (storageWith 3) "1980-001-00:00:00.00000" 0
      "/cf/dump.json" sampleLoaded).2.2.1⟩

/-- C8: MSGLOGTBL_ResetStatus sets LastLoadStatus to TBLMGR_STATUS_UNDEF and
LastLoadCnt to 0, leaves the record (all four fields) and Loaded as they were,
and calling it twice gives the same state as calling it once. -/
theorem C8_reset_status (P : Platform) (m : Module) :
    (MSGLOGTBL_ResetStatus P m).MsgLogTbl.LastLoadStatus = P.TBLMGR_STATUS_UNDEF ∧
    (MSGLOGTBL_ResetStatus P m).MsgLogTbl.LastLoadCnt = 0 ∧
    (MSGLOGTBL_ResetStatus P m).MsgLogTbl.Data = m.MsgLogTbl.Data ∧
    (MSGLOGTBL_ResetStatus P m).MsgLogTbl.Data.File.PathBaseName
      = m.MsgLogTbl.Data.File.PathBaseName ∧
    (MSGLOGTBL_ResetStatus P m).MsgLogTbl.Data.File.Extension
      = m.MsgLogTbl.Data.File.Extension ∧
    (MSGLOGTBL_ResetStatus P m).MsgLogTbl.Data.File.EntryCnt
      = m.MsgLogTbl.Data.File.EntryCnt ∧
    (MSGLOGTBL_ResetStatus P m).MsgLogTbl.Data.PlaybkDelay = m.MsgLogTbl.Data.PlaybkDelay ∧
    (MSGLOGTBL_ResetStatus P m).MsgLogTbl.Loaded = m.MsgLogTbl.Loaded ∧
    MSGLOGTBL_ResetStatus P (MSGLOGTBL_ResetStatus P m) = MSGLOGTBL_ResetStatus P m :=
  ⟨rfl, rfl, rfl, rfl, rfl, rfl, rfl, rfl, rfl⟩

/-- C9: once Loaded is TRUE, LoadJsonData accepts whatever the mapper returns: it
commits the staging record, stores the returned count n in LastLoadCnt (also for
n = 0) and returns TRUE.  So a LoadCmd on a loaded table whose file is read and
holds none of the four keys (the mapper leaves the staging record as it is and
returns 0) returns TRUE with the valid status, LastLoadCnt = 0 and the record
unchanged; and on a loaded table LoadCmd returns FALSE only when
CJSON_ProcessFile fails without calling the callback. -/
theorem C9_loaded_table_accepts_any_count (P : Platform) (M : CJSON_LoadObjArray_t)
    (m : Module) (hL : m.MsgLogTbl.Loaded = true) :
    (∀ len : Nat,
      (LoadJsonData M len m).1 = true ∧
      (LoadJsonData M len m).2.MsgLogTbl.Data
        = (M m.JsonTblObjs m.MsgLogTbl.JsonObjCnt m.MsgLogTbl.JsonBuf len
            m.MsgLogTbl.Data).TblData ∧
      (LoadJsonData M len m).2.MsgLogTbl.LastLoadCnt
        = (M m.JsonTblObjs m.MsgLogTbl.JsonObjCnt m.MsgLogTbl.JsonBuf len
            m.MsgLogTbl.Data).ObjLoadCnt) ∧
    (∀ (FS : CJSON_ReadFile_t) (LoadType : Nat) (Filename : String) (buf : List Char)
        (len : Nat) (objs : List CJSON_Obj_t),
      FS Filename P.MSGLOGTBL_JSON_FILE_MAX_CHAR m.MsgLogTbl.JsonBuf = .read buf len →
      M m.JsonTblObjs m.MsgLogTbl.JsonObjCnt buf len m.MsgLogTbl.Data
        = { Objs := objs, TblData := m.MsgLogTbl.Data, ObjLoadCnt := 0 } →
      (MSGLOGTBL_LoadCmd P M FS LoadType Filename m).1 = true ∧
      (MSGLOGTBL_LoadCmd P M FS LoadType Filename m).2.MsgLogTbl.LastLoadStatus
        = P.TBLMGR_STATUS_VALID ∧
      (MSGLOGTBL_LoadCmd P M FS LoadType Filename m).2.MsgLogTbl.LastLoadCnt = 0 ∧
      (MSGLOGTBL_LoadCmd P M FS LoadType Filename m).2.MsgLogTbl.Data = m.MsgLogTbl.Data) ∧
    (∀ (FS : CJSON_ReadFile_t) (LoadType : Nat) (Filename : String),
      (MSGLOGTBL_LoadCmd P M FS LoadType Filename m).1 = false →
      ∃ buf, FS Filename P.MSGLOGTBL_JSON_FILE_MAX_CHAR m.MsgLogTbl.JsonBuf = .failed buf) := by
  refine ⟨?_, ?_, ?_⟩
  · intro len
    simp [LoadJsonData, hL]
  · intro FS LoadType Filename buf len objs hF hM
    rw [loadCmd_of_read_accept P M FS LoadType Filename m buf len hF (Or.inl hL), hM]
    exact ⟨rfl, rfl, rfl, rfl⟩
  · intro FS LoadType Filename hR
    cases hF : FS Filename P.MSGLOGTBL_JSON_FILE_MAX_CHAR m.MsgLogTbl.JsonBuf with
    | failed buf => exact ⟨buf, rfl⟩
    | read buf len =>
      rw [loadCmd_of_read_accept P M FS LoadType Filename m buf len hF (Or.inl hL)] at hR
      cases hR

/-- C9 on a concrete input: the loaded sample table, reloaded from a file without
any of the four keys, reports success with count 0 and keeps its record. -/
theorem C9_witness :
    sampleLoaded.MsgLogTbl.Loaded = true ∧
    (MSGLOGTBL_LoadCmd samplePlatform mapperNoKeys (fsReadable "abc".toList) 0
      "/cf/empty.json" sampleLoaded).1 = true ∧
    (MSGLOGTBL_LoadCmd samplePlatform mapperNoKeys (fsReadable "abc".toList) 0
      "/cf/empty.json" sampleLoaded).2.MsgLogTbl.LastLoadStatus
      = samplePlatform.TBLMGR_STATUS_VALID ∧
    (MSGLOGTBL_LoadCmd samplePlatform mapperNoKeys (fsReadable "abc".toList) 0
      "/cf/empty.json" sampleLoaded).2.MsgLogTbl.LastLoadCnt = 0 ∧
    (MSGLOGTBL_LoadCmd samplePlatform mapperNoKeys (fsReadable "abc".toList) 0
      "/cf/empty.json" sampleLoaded).2.MsgLogTbl.Data = sampleLoaded.MsgLogTbl.Data :=
  ⟨by decide,
   (C9_loaded_table_accepts_any_count samplePlatform mapperNoKeys sampleLoaded
      (by decide)).2.1 (fsReadable "abc".toList) 0 "/cf/empty.json" "abc".toList 3
      sampleLoaded.JsonTblObjs rfl rfl⟩

/-- C10: the outcome of a load does not depend on what is in the static buffer
TblData beforehand.  Two runs of LoadJsonData from module data that differ only in
TblData return the same status and end in the same module data, hence the same
table object, because TblData is overwritten with the record of the owner before
the mapper runs; and two such runs of MSGLOGTBL_LoadCmd return the same status
and end with the same table object. -/
theorem C10_staging_leftovers_ignored (P : Platform) (M : CJSON_LoadObjArray_t)
    (FS : CJSON_ReadFile_t) (LoadType : Nat) (Filename : String) (len : Nat) (m : Module)
    (td1 td2 : MSGLOGTBL_Data_t) :
    LoadJsonData M len { m with TblData := td1 }
      = LoadJsonData M len { m with TblData := td2 } ∧
    (LoadJsonData M len { m with TblData := td1 }).1
      = (LoadJsonData M len { m with TblData := td2 }).1 ∧
    (LoadJsonData M len { m with TblData := td1 }).2.MsgLogTbl
      = (LoadJsonData M len { m with TblData := td2 }).2.MsgLogTbl ∧
    (MSGLOGTBL_LoadCmd P M FS LoadType Filename { m with TblData := td1 }).1
      = (MSGLOGTBL_LoadCmd P M FS LoadType Filename { m with TblData := td2 }).1 ∧
    (MSGLOGTBL_LoadCmd P M FS LoadType Filename { m with TblData := td1 }).2.MsgLogTbl
      = (MSGLOGTBL_LoadCmd P M FS LoadType Filename { m with TblData := td2 }).2.MsgLogTbl := by
  have h1 : LoadJsonData M len { m with TblData := td1 }
      = LoadJsonData M len { m with TblData := td2 } := by
    simp only [LoadJsonData]
  refine ⟨h1, by rw [h1], by rw [h1], ?_, ?_⟩
  · simp only [MSGLOGTBL_LoadCmd, CJSON_ProcessFile]
    cases FS Filename P.MSGLOGTBL_JSON_FILE_MAX_CHAR m.MsgLogTbl.JsonBuf with
    | failed buf => rfl
    | read buf len2 => simp only [LoadJsonData]
  · simp only [MSGLOGTBL_LoadCmd, CJSON_ProcessFile]
    cases FS Filename P.MSGLOGTBL_JSON_FILE_MAX_CHAR m.MsgLogTbl.JsonBuf with
    | failed buf => rfl
    | read buf len2 => simp only [LoadJsonData]

end MsgLogTbl
